import Mathlib

/-!
Verification of the lmsc_website analytics module.

Shallow embedding of the site-analytics ingestion endpoint (`/analytics/track`)
and the reporting computations of `/admin/analytics` from `src/app.py`, together
with the pure helpers they use (`compute_percent_change`,
`extract_slug_from_path`, `classify_traffic_source`, `is_probably_bot`,
`detect_device_details`, `extract_country_from_headers`).

Python strings are modelled by Lean `String` (ASCII-faithful: `str.lower`,
`str.upper`, `str.title` are modelled by their ASCII behaviour; the code under
verification only compares against ASCII constants).  Python floats are
modelled by `ℚ`; `round(x, n)` is modelled by exact round-half-to-even,
Python's documented tie-breaking rule.  The pieces of the Python standard
library the code calls (`urllib.parse.urlparse`, `urllib.parse.parse_qs`,
`hashlib.sha256`) are modelled explicitly below.  All string operations are
implemented by structural recursion on the character list so that every
definition evaluates inside the kernel.
-/

namespace LMSC

/-! ## Python string operation models -/

/-- ASCII lowercase, modelling `str.lower`. -/
def toLowerS (s : String) : String := String.mk (s.toList.map Char.toLower)

/-- ASCII uppercase, modelling `str.upper`. -/
def toUpperS (s : String) : String := String.mk (s.toList.map Char.toUpper)

/-- Model of `s.startswith(pre)`. -/
def startsWithS (s pre : String) : Bool := pre.toList.isPrefixOf s.toList

/-- Model of `s.endswith(suf)`. -/
def endsWithS (s suf : String) : Bool := suf.toList.isSuffixOf s.toList

/-- Model of `s[n:]` for a nonnegative index. -/
def dropS (s : String) (n : Nat) : String := String.mk (s.toList.drop n)

/-- Does `needle` occur as a contiguous run inside the haystack? -/
def containsSubAux (needle : List Char) : List Char → Bool
  | [] => needle.isEmpty
  | x :: rest => needle.isPrefixOf (x :: rest) || containsSubAux needle rest

/-- Model of the Python substring test `pat in s`. -/
def pyContains (s pat : String) : Bool := containsSubAux pat.toList s.toList

/-- Split on every occurrence of a character, modelling `s.split(c)`
(the separators used by the code are all single characters). -/
def splitCharAux (c : Char) : List Char → List Char → List (List Char)
  | [], acc => [acc.reverse]
  | x :: xs, acc =>
    if x == c then acc.reverse :: splitCharAux c xs []
    else splitCharAux c xs (x :: acc)

/-- Model of `s.split(c)` on strings. -/
def splitS (s : String) (c : Char) : List String :=
  (splitCharAux c s.toList []).map String.mk

/-- The part of `s` before the first occurrence of `c`, paired with the part
after it; `(s, "")` when `c` does not occur (matching `str.split(c, 1)`). -/
def splitFirst (s : String) (c : Char) : String × String :=
  (String.mk (s.toList.takeWhile (· != c)),
   String.mk ((s.toList.dropWhile (· != c)).drop 1))

/-- Model of `s.strip(c)` for a single strip character. -/
def stripChar (s : String) (c : Char) : String :=
  String.mk (((s.toList.dropWhile (· == c)).reverse.dropWhile (· == c)).reverse)

/-- Model of `s.rstrip(c)` for a single strip character. -/
def rstripChar (s : String) (c : Char) : String :=
  String.mk ((s.toList.reverse.dropWhile (· == c)).reverse)

/-- Truthiness of an optional string, as Python uses it in `if x:` and
`x or y` chains: `None` and the empty string are falsy. -/
def strTruthy (o : Option String) : Bool :=
  o.getD "" != ""

/-- Model of Python `a or b` on optional strings: `a` when truthy, else `b`. -/
def pyOr (a b : Option String) : Option String :=
  if strTruthy a then a else b

/-- Auxiliary recursion for `pyTitle`: the flag records whether the previous
character was a cased letter. -/
def pyTitleAux : Bool → List Char → List Char
  | _, [] => []
  | cased, c :: rest =>
    let c2 := if c.isAlpha then (if cased then c.toLower else c.toUpper) else c
    c2 :: pyTitleAux c.isAlpha rest

/-- Model of Python `str.title()` (ASCII letters as the cased characters). -/
def pyTitle (s : String) : String :=
  String.mk (pyTitleAux false s.toList)

/-- Lexicographic order on character lists: SQLite compares its normalized
`YYYY-MM-DD HH:MM:SS` datetime strings bytewise, which on this fixed-width
format coincides with chronological order. -/
def leChars : List Char → List Char → Bool
  | [], _ => true
  | _ :: _, [] => false
  | a :: as, b :: bs => if a == b then leChars as bs else decide (a < b)

/-- String comparison used for the `datetime(created_at) >= datetime('now', ?)`
window conditions. -/
def strLe (a b : String) : Bool := leChars a.toList b.toList

/-! ## Rounding

Python `round(x, 1)` rounds to one decimal with ties going to the even digit.
On `ℚ` this is exact round-half-to-even of `10 * x`, divided by `10`. -/

/-- Round a rational to the nearest integer, ties to even. -/
def roundHalfEven (q : ℚ) : ℤ :=
  if q - (⌊q⌋ : ℚ) < 1/2 then ⌊q⌋
  else if 1/2 < q - (⌊q⌋ : ℚ) then ⌊q⌋ + 1
  else if ⌊q⌋ % 2 = 0 then ⌊q⌋ else ⌊q⌋ + 1

/-- Model of Python `round(x, 1)` on exact rationals. -/
def pyRound1 (q : ℚ) : ℚ :=
  (roundHalfEven (q * 10) : ℚ) / 10

/-- Model of Python `round(x, 2)` on exact rationals. -/
def pyRound2 (q : ℚ) : ℚ :=
  (roundHalfEven (q * 100) : ℚ) / 100

/-! ## `compute_percent_change` (src/app.py) -/

/-- Model of `compute_percent_change(current, previous)`: `None` when `previous` is
zero (Python tests `previous in (None, 0)`), otherwise
`(current - previous) / previous * 100` rounded to one decimal.  The
`TypeError`/`ZeroDivisionError` guard of the source is unreachable for numeric
arguments. -/
def compute_percent_change (current previous : ℚ) : Option ℚ :=
  if previous = 0 then none
  else some (pyRound1 ((current - previous) / previous * 100))

/-! ## `extract_slug_from_path` (src/app.py) -/

/-- Model of `extract_slug_from_path(path)`: `None` for a falsy path; otherwise drop the
query string and fragment, map `"/"` (or a path of only slashes) to `"home"`,
map a path whose first segment is `pages` (with at least two segments) to the
second segment, and otherwise return the final path segment. -/
def extract_slug_from_path (path : String) : Option String :=
  if path = "" then none
  else
    let clean_path := (splitS ((splitS path '?').headD "") '#').headD ""
    if clean_path = "/" then some "home"
    else
      let stripped := stripChar clean_path '/'
      if stripped = "" then some "home"
      else
        let parts := splitS stripped '/'
        if parts.headD "" = "pages" && parts.length > 1 then some (parts.getD 1 "")
        else some (parts.getLastD "")

example : extract_slug_from_path "/pages/about" = some "about" := by decide
example : extract_slug_from_path "/pages/about?x=1#y" = some "about" := by decide
example : extract_slug_from_path "/" = some "home" := by decide
example : extract_slug_from_path "" = none := by decide
example : extract_slug_from_path "/news/item" = some "item" := by decide

/-! ## Bot heuristic and device sniffing (src/app.py) -/

/-- The bot token list of `is_probably_bot`. -/
def bot_tokens : List String :=
  ["bot", "spider", "crawl", "slurp", "phantom", "headless", "pingdom"]

/-- Model of `is_probably_bot(user_agent)`: empty user agent is not a bot; otherwise a
case-insensitive substring match against the token list. -/
def is_probably_bot (user_agent : String) : Bool :=
  if user_agent = "" then false
  else
    let lowered := toLowerS user_agent
    bot_tokens.any (fun tok => pyContains lowered tok)

/-- Model of `detect_device_details(user_agent)`: `(device_type, device_os)` from
case-insensitive substring tests. -/
def detect_device_details (user_agent : String) : String × String :=
  let ua := toLowerS user_agent
  let device_type :=
    if pyContains ua "ipad" || pyContains ua "tablet" then "Tablet"
    else if pyContains ua "mobile" || pyContains ua "iphone" || pyContains ua "android" then
      "Mobile"
    else "Desktop"
  let device_os :=
    if pyContains ua "windows" then "Windows"
    else if pyContains ua "mac os" || pyContains ua "macintosh" then "macOS"
    else if pyContains ua "iphone" || pyContains ua "ipad" || pyContains ua "ios" then "iOS"
    else if pyContains ua "android" then "Android"
    else if pyContains ua "linux" then "Linux"
    else "Other"
  (device_type, device_os)

/-- Model of `extract_country_from_headers(req, language)`: first non-empty, non-`"XX"`
geolocation header (in the order `CF-IPCountry`, `X-Appengine-Country`,
`X-Country-Code`) uppercased; else the region part of a hyphenated language
tag; else `"Unknown"`. -/
def extract_country_from_headers
    (cf_ipcountry x_appengine_country x_country_code language : Option String) : String :=
  let pick : Option String → Option String := fun v =>
    match v with
    | some s => if s != "" && s != "XX" then some (toUpperS s) else none
    | none => none
  match pick cf_ipcountry with
  | some c => c
  | none =>
    match pick x_appengine_country with
    | some c => c
    | none =>
      match pick x_country_code with
      | some c => c
      | none =>
        match language with
        | some lang =>
          if lang != "" && pyContains lang "-" then
            toUpperS ((splitS lang '-').getLastD "")
          else "Unknown"
        | none => "Unknown"

/-! ## Model of `urllib.parse` (Python standard library collaborator)

`urlsplit` models CPython's parser: strip leading C0-control/space characters,
remove tab/CR/LF everywhere, split off a scheme when the text before the first
`:` is a valid scheme, take the netloc after `//` up to the first of `/?#`,
then split fragment (first `#`) and query (first `?`).  A netloc containing an
unmatched `[`/`]` raises `ValueError`, modelled as `none`.  (CPython
additionally validates the address inside matched brackets and applies an NFKC
check to non-ASCII netlocs; inputs in this file never hit those paths.) -/

/-- Characters permitted in a URL scheme. -/
def scheme_chars : List Char :=
  "abcdefghijklmnopqrstuvwxyzABCDEFGHIJKLMNOPQRSTUVWXYZ0123456789+-.".toList

/-- The components returned by `urllib.parse.urlsplit`. -/
structure UrlSplit where
  scheme : String
  netloc : String
  path : String
  query : String
  fragment : String
deriving DecidableEq, Repr

/-- Model of `urllib.parse.urlsplit`; `none` models a raised `ValueError`. -/
def urlsplit (url0 : String) : Option UrlSplit :=
  let cs0 := url0.toList.dropWhile (fun c => c.toNat ≤ 32)
  let cs := cs0.filter (fun c => !(c == '\t' || c == '\r' || c == '\n'))
  let beforeColon := cs.takeWhile (· != ':')
  let afterColon := (cs.dropWhile (· != ':')).drop 1
  let schemeOk := cs.contains ':' && !beforeColon.isEmpty &&
    (match beforeColon with
     | c :: _ => c.isAlpha
     | [] => false) &&
    beforeColon.all (fun c => scheme_chars.contains c)
  let scheme := if schemeOk then beforeColon.map Char.toLower else []
  let rest := if schemeOk then afterColon else cs
  let hasNetloc :=
    match rest with
    | '/' :: '/' :: _ => true
    | _ => false
  let rest2 := rest.drop 2
  let netloc :=
    if hasNetloc then rest2.takeWhile (fun c => !(c == '/' || c == '?' || c == '#')) else []
  let rest3 :=
    if hasNetloc then rest2.dropWhile (fun c => !(c == '/' || c == '?' || c == '#')) else rest
  if hasNetloc && (netloc.contains '[' != netloc.contains ']') then none
  else
    let u4 := rest3.takeWhile (· != '#')
    let fragment := (rest3.dropWhile (· != '#')).drop 1
    let path := u4.takeWhile (· != '?')
    let query := (u4.dropWhile (· != '?')).drop 1
    some ⟨String.mk scheme, String.mk netloc, String.mk path,
          String.mk query, String.mk fragment⟩

/-- Schemes for which `urlparse` separates `;parameters` from the path. -/
def uses_params : List String :=
  ["", "ftp", "hdl", "prospero", "http", "imap", "https", "shttp", "rtsp",
   "rtspu", "sip", "sips", "mms", "sftp", "tel"]

/-- CPython `_splitparams`: split the path at the first `;` occurring after the
last `/` (or anywhere if the path has no `/`), returning `(path, params)`. -/
def splitparamsChars (p : List Char) : List Char × List Char :=
  if p.contains '/' then
    let revd := p.reverse
    let lastSeg := (revd.takeWhile (· != '/')).reverse
    let front := (revd.dropWhile (· != '/')).reverse
    if lastSeg.contains ';' then
      (front ++ lastSeg.takeWhile (· != ';'), (lastSeg.dropWhile (· != ';')).drop 1)
    else (p, [])
  else (p.takeWhile (· != ';'), (p.dropWhile (· != ';')).drop 1)

/-- The components returned by `urllib.parse.urlparse`. -/
structure UrlParse where
  scheme : String
  netloc : String
  path : String
  params : String
  query : String
  fragment : String
deriving DecidableEq, Repr

/-- Model of `urllib.parse.urlparse`; `none` models a raised `ValueError`. -/
def urlparse (url : String) : Option UrlParse :=
  match urlsplit url with
  | none => none
  | some s =>
    if uses_params.contains s.scheme && s.path.toList.contains ';' then
      let pp := splitparamsChars s.path.toList
      some ⟨s.scheme, s.netloc, String.mk pp.1, String.mk pp.2, s.query, s.fragment⟩
    else some ⟨s.scheme, s.netloc, s.path, "", s.query, s.fragment⟩

/-- Hexadecimal digit value. -/
def hexVal (c : Char) : Option Nat :=
  if '0' ≤ c ∧ c ≤ '9' then some (c.toNat - 48)
  else if 'a' ≤ c ∧ c ≤ 'f' then some (c.toNat - 87)
  else if 'A' ≤ c ∧ c ≤ 'F' then some (c.toNat - 55)
  else none

/-- Model of `urllib.parse.unquote_plus`: `+` becomes a space and `%hh` becomes
the character with that code (faithful for ASCII escapes; multi-byte UTF-8
percent-escape sequences are not recombined — the classifier only compares the
result against ASCII constants). -/
def unquotePlusAux : List Char → List Char
  | [] => []
  | '+' :: rest => ' ' :: unquotePlusAux rest
  | '%' :: a :: b :: rest =>
    match hexVal a, hexVal b with
    | some x, some y => Char.ofNat (16 * x + y) :: unquotePlusAux rest
    | _, _ => '%' :: unquotePlusAux (a :: b :: rest)
  | c :: rest => c :: unquotePlusAux rest

/-- Model of `unquote_plus` on strings. -/
def unquote_plus (s : String) : String := String.mk (unquotePlusAux s.toList)

/-- Model of `urllib.parse.parse_qsl` with default arguments: split the query
on `&`, skip empty chunks, skip chunks without `=`, skip blank values
(`keep_blank_values=False`), unquote names and values. -/
def parse_qsl (query : String) : List (String × String) :=
  (splitCharAux '&' query.toList []).filterMap fun nv =>
    if nv.isEmpty then none
    else if nv.contains '=' then
      let n := nv.takeWhile (· != '=')
      let v := (nv.dropWhile (· != '=')).drop 1
      if v.isEmpty then none
      else some (unquote_plus (String.mk n), unquote_plus (String.mk v))
    else none

/-- Model of `parse_qs(query).get(key, [None])[0]`: the first value bound to `key`. -/
def parse_qs_first (query key : String) : Option String :=
  ((parse_qsl query).find? (fun p => p.1 == key)).map (fun p => p.2)

example : urlparse "https://www.Example.com:8080/a/b?x=1#f" =
    some ⟨"https", "www.Example.com:8080", "/a/b", "", "x=1", "f"⟩ := by decide
example : urlparse "https://example.com/admin/users" =
    some ⟨"https", "example.com", "/admin/users", "", "", ""⟩ := by decide
example : parse_qs_first "utm_medium=cpc&utm_source=g" "utm_medium" = some "cpc" := by decide
example : parse_qs_first "utm_medium=" "utm_medium" = none := by decide

/-! ## `classify_traffic_source` (src/app.py) -/

/-- Model of `SOCIAL_DOMAINS` (src/app.py, module level). -/
def SOCIAL_DOMAINS : List String :=
  ["facebook.com", "instagram.com", "twitter.com", "t.co", "linkedin.com",
   "youtube.com", "tiktok.com", "snapchat.com", "pinterest.com"]

/-- Model of `SEARCH_DOMAINS` (src/app.py, module level). -/
def SEARCH_DOMAINS : List String :=
  ["google.", "bing.", "yahoo.", "duckduckgo.", "baidu.", "yandex.",
   "ask.com", "ecosia.org"]

/-- The host normalization applied inside `classify_traffic_source`:
lowercase, strip a leading `www.`, strip everything from the first `:`. -/
def normalize_host (host0 : String) : String :=
  let h1 := toLowerS host0
  let h2 := if startsWithS h1 "www." then dropS h1 4 else h1
  if h2 != "" then (splitS h2 ':').headD "" else h2

/-- The `if utm_medium:` branch of `classify_traffic_source`: the label
determined by the (truthy) `utm_medium` value alone. -/
def medium_label (utm_medium : String) : String :=
  let medium := toLowerS utm_medium
  if medium = "email" || medium = "newsletter" then "Email"
  else if medium = "cpc" || medium = "ppc" || medium = "paid" || medium = "paid-search" then
    "Paid Search"
  else if medium = "social" || medium = "paid-social" then "Paid Social"
  else if medium = "display" || medium = "banner" then "Display"
  else pyTitle medium

/-- The tuple returned by `classify_traffic_source` (the Python function
returns `(traffic_source, utm_source, utm_medium, utm_campaign,
referrer_domain)`; this structure names the positions). -/
structure TrafficClass where
  traffic_source : String
  utm_source : Option String
  utm_medium : Option String
  utm_campaign : Option String
  referrer_domain : Option String
deriving DecidableEq, Repr

/-- The `if url:` block of `classify_traffic_source`: extract
`(utm_source, utm_medium, utm_campaign)` from the URL's query string.
The unguarded `urlparse` call can raise, modelled by `none`. -/
def extract_utms (url : Option String) :
    Option (Option String × Option String × Option String) :=
  if strTruthy url then
    match urlparse (url.getD "") with
    | none => none
    | some pu =>
      some (parse_qs_first pu.query "utm_source",
            parse_qs_first pu.query "utm_medium",
            parse_qs_first pu.query "utm_campaign")
  else some (none, none, none)

/-- The `if referrer:` block of `classify_traffic_source`: lowercase the
referrer netloc, strip a leading `www.`, strip everything from the
first `:`.  Outer `none` models the unguarded `urlparse` raising; inner
`none` models a falsy referrer (variable left as Python `None`). -/
def extract_referrer_domain (referrer : Option String) : Option (Option String) :=
  if strTruthy referrer then
    match urlparse (referrer.getD "") with
    | none => none
    | some pr =>
      let d0 := toLowerS pr.netloc
      let d1 := if d0 != "" && startsWithS d0 "www." then dropS d0 4 else d0
      let d2 := if d1 != "" then (splitS d1 ':').headD "" else d1
      some (some d2)
  else some none

/-- The decision chain of `classify_traffic_source` (the `if utm_medium: /
elif referrer_domain: / else:` cascade). -/
def classify_decision (utm_medium referrer_domain : Option String) (host0 : String) :
    String :=
  let host := normalize_host host0
  let rd := referrer_domain.getD ""
  if strTruthy utm_medium then medium_label (utm_medium.getD "")
  else if strTruthy referrer_domain then
    if host != "" && endsWithS rd host then "Internal"
    else if SOCIAL_DOMAINS.any (fun tok => pyContains rd tok) then "Social"
    else if SEARCH_DOMAINS.any (fun tok => pyContains rd tok) then "Organic Search"
    else "Referral"
  else "Direct"

/-- Model of `classify_traffic_source(url, referrer, host)`, composed of the
three sequential blocks of the source.  The two `urlparse` calls are not
guarded in the source, so a `ValueError` propagates out of the function;
that is modelled by `none`. -/
def classify_traffic_source (url referrer : Option String) (host0 : String) :
    Option TrafficClass :=
  match extract_utms url with
  | none => none
  | some (utm_source, utm_medium, utm_campaign) =>
    match extract_referrer_domain referrer with
    | none => none
    | some referrer_domain =>
      some ⟨classify_decision utm_medium referrer_domain host0,
            utm_source, utm_medium, utm_campaign, referrer_domain⟩

example :
    (classify_traffic_source (some "https://x.com/p?utm_medium=cpc")
      (some "https://facebook.com/post") "example.com").map TrafficClass.traffic_source =
    some "Paid Search" := by decide
example :
    (classify_traffic_source none (some "https://www.example.com/a")
      "example.com").map TrafficClass.traffic_source = some "Internal" := by decide
example :
    (classify_traffic_source none (some "https://duckduckgo.com/")
      "example.com").map TrafficClass.traffic_source = some "Organic Search" := by decide
example :
    (classify_traffic_source none (some "https://news.site/a")
      "example.com").map TrafficClass.traffic_source = some "Referral" := by decide
example :
    (classify_traffic_source none none "example.com").map TrafficClass.traffic_source =
    some "Direct" := by decide

/-! ## The `/analytics/track` ingestion endpoint (src/app.py, `analytics_track`)

The request is modelled by the data the handler actually reads.  The JSON body
is modelled as an optional record of the fields the handler looks up:
`none` stands for a body that `request.get_json(silent=True)` turns into a
falsy value — a parse failure or a falsy JSON document — which the code then
replaces by `{}` via `payload = request.get_json(silent=True) or {}`.
(A truthy non-object JSON body such as a list would raise `AttributeError`
at `payload.get` and produce a server error; that exotic path is outside the
typed payload model.)  Field values are typed as the client-side beacon sends
them: strings, integers for the screen dimensions, a boolean for
`is_session_start`. -/

/-- The JSON beacon payload fields read by `analytics_track`. -/
structure Payload where
  path : Option String := none
  url : Option String := none
  referrer : Option String := none
  language : Option String := none
  visitor_id : Option String := none
  session_id : Option String := none
  page_slug : Option String := none
  page_title : Option String := none
  timezone : Option String := none
  screen_width : Option Int := none
  screen_height : Option Int := none
  is_session_start : Option Bool := none
deriving DecidableEq, Repr

/-- The parts of the Flask request object read by `analytics_track`. -/
structure Request where
  is_json : Bool := true
  body : Option Payload := none
  origin : Option String := none
  user_agent : String := ""
  referrer : Option String := none
  host : String := ""
  url_scheme : String := "http"
  remote_addr : String := ""
  x_forwarded_for : Option String := none
  cf_ipcountry : Option String := none
  x_appengine_country : Option String := none
  x_country_code : Option String := none
deriving DecidableEq, Repr

/-- Flask `request.host_url`: `scheme://host/`. -/
def host_url (req : Request) : String :=
  req.url_scheme ++ "://" ++ req.host ++ "/"

/-- One row of the `analytics_events` table, as inserted by the endpoint
(`id` is auto-assigned and never read back by the module). -/
structure AnalyticsEvent where
  visitor_id : String := ""
  session_id : String := ""
  page_slug : Option String := none
  page_title : Option String := none
  path : Option String := none
  url : Option String := none
  referrer : Option String := none
  referrer_domain : Option String := none
  traffic_source : String := "Direct"
  utm_source : Option String := none
  utm_medium : Option String := none
  utm_campaign : Option String := none
  device_type : String := "Desktop"
  device_os : String := "Other"
  language : Option String := none
  country : String := "Unknown"
  timezone : Option String := none
  screen_width : Option Int := none
  screen_height : Option Int := none
  is_session_start : Nat := 0
  created_at : String := ""
deriving DecidableEq, Repr

/-- Model of `hashlib.sha256(key).hexdigest()[:32]` as used for the visitor and
session fallback identifiers.  The digest value is irrelevant to every claim (only
that *some* derived identifier is stored matters), so it is modelled by an
injective tagging function rather than by the SHA-256 compression function. -/
def sha256_hex_32 (s : String) : String := "sha256:" ++ s

/-- Model of `str(None)` / `str(True)` / `str(False)` for the f-string that
feeds the session-id hash. -/
def pyReprOptBool : Option Bool → String
  | none => "None"
  | some true => "True"
  | some false => "False"

/-- Model of `safe_int` applied to a payload field.  The typed payload already carries
integers, and `int` is the identity on them; non-numeric JSON values (which
`safe_int` maps to `None`) are outside the typed payload model. -/
def safe_int (v : Option Int) : Option Int := v

/-- The cross-origin guard of the handler: a present, non-empty `Origin`
header that does not string-prefix-match `request.host_url.rstrip("/")`
(this names the handler's inline condition
`origin and not origin.startswith(request.host_url.rstrip("/"))`). -/
def origin_mismatch (req : Request) : Bool :=
  match req.origin with
  | some o => o != "" && !startsWithS o (rstripChar (host_url req) '/')
  | none => false

/-- The path field declared by the beacon body, after the handler's
`str(payload.get("path") or "")` coercion. -/
def declared_path (req : Request) : String :=
  (req.body.getD {}).path.getD ""

/-- The request is silently rejected (no row, HTTP 204) if and only if one of
these four conditions holds. -/
def track_rejected (req : Request) : Bool :=
  !req.is_json || origin_mismatch req ||
    startsWithS (declared_path req) "/admin" || is_probably_bot req.user_agent

/-- The `path` variable of the handler after the fallback derivation from the
beacon's `url` field: a blank declared path is replaced (when a truthy `url`
is present) by the parsed URL's path, with the `try/except ValueError` guard
of the source mapping a parse failure to the empty path. -/
def track_path (req : Request) : String :=
  let payload := req.body.getD {}
  let path0 := payload.path.getD ""
  if path0 = "" && strTruthy payload.url then
    match urlparse (payload.url.getD "") with
    | none => ""
    | some pr => pr.path
  else path0

/-- The row the handler inserts on acceptance (the variable block between the
guards and the `INSERT`, given the traffic classification `tc`). -/
def track_row (req : Request) (now : String) (tc : TrafficClass) : AnalyticsEvent :=
  let payload := req.body.getD {}
  let user_agent := req.user_agent
  let path := track_path req
  let language := payload.language
  let visitor_id :=
    if strTruthy payload.visitor_id then payload.visitor_id.getD ""
    else
      sha256_hex_32 ((req.x_forwarded_for.getD req.remote_addr) ++ "|" ++ user_agent)
  let session_id :=
    if strTruthy payload.session_id then payload.session_id.getD ""
    else
      sha256_hex_32
        (visitor_id ++ "|" ++ pyReprOptBool payload.is_session_start ++ "|" ++ now)
  let dd := detect_device_details user_agent
  { visitor_id := visitor_id
    session_id := session_id
    page_slug := pyOr payload.page_slug (extract_slug_from_path path)
    page_title := payload.page_title
    path := if path = "" then none else some path
    url := payload.url
    referrer := pyOr payload.referrer req.referrer
    referrer_domain := tc.referrer_domain
    traffic_source := tc.traffic_source
    utm_source := tc.utm_source
    utm_medium := tc.utm_medium
    utm_campaign := tc.utm_campaign
    device_type := dd.1
    device_os := dd.2
    language := language
    country := extract_country_from_headers req.cf_ipcountry req.x_appengine_country
      req.x_country_code language
    timezone := payload.timezone
    screen_width := safe_int payload.screen_width
    screen_height := safe_int payload.screen_height
    is_session_start := if payload.is_session_start.getD false then 1 else 0
    created_at := now }

/-- The handler `analytics_track(request)`, as a function of the request, the
server clock string returned by `current_timestamp()`, and the current
`analytics_events` table.  Returns the HTTP response (body, status) and the
new table; `none` models an unhandled exception (HTTP 500) from the
unguarded `urlparse` calls inside `classify_traffic_source`.  The four guards
appear in source order; the variable block before the `INSERT` is
`track_row`. -/
def analytics_track (req : Request) (now : String) (db : List AnalyticsEvent) :
    Option ((String × Nat) × List AnalyticsEvent) :=
  if !req.is_json then some (("", 204), db)
  else if origin_mismatch req then some (("", 204), db)
  else if startsWithS (declared_path req) "/admin" then some (("", 204), db)
  else if is_probably_bot req.user_agent then some (("", 204), db)
  else
    match classify_traffic_source (req.body.getD {}).url
        (pyOr (req.body.getD {}).referrer req.referrer) req.host with
    | none => none
    | some tc => some (("", 204), db ++ [track_row req now tc])

/-- The row appended by a successful ingestion: the last element of the table
the handler returns. -/
def track_result_row (req : Request) (now : String) (db : List AnalyticsEvent) :
    Option AnalyticsEvent :=
  (analytics_track req now db).map (fun r => r.2.getLastD {})

example :
    (analytics_track { host := "example.com", body := some {} } "2025-01-01 00:00:00"
      []).map (fun r => (r.1, r.2.length)) = some ((("", 204), 1)) := by decide
example :
    (analytics_track { host := "example.com", body := some {}, user_agent := "Googlebot" }
      "2025-01-01 00:00:00" []).map (fun r => (r.1, r.2.length)) =
    some ((("", 204), 0)) := by decide
example :
    (analytics_track { host := "example.com", body := none } "2025-01-01 00:00:00"
      []).map (fun r => r.2.length) = some 1 := by decide

/-! ## The `/admin/analytics` reporting computations (src/app.py, `admin_analytics`)

The SQL window condition `datetime(created_at) >= datetime('now', '-N day')`
selects the rows whose (normalized, fixed-format) `created_at` string is
lexicographically at least the cutoff; the window is modelled by that cutoff
string.  The aggregation queries are modelled over the list of selected
rows. -/

/-- Rows of the events table inside the reporting window. -/
def window_events (db : List AnalyticsEvent) (cutoff : String) : List AnalyticsEvent :=
  db.filter (fun e => strLe cutoff e.created_at)

/-- The distinct `session_id` values, i.e. the groups of
`SELECT session_id, COUNT(*) AS views ... GROUP BY session_id`. -/
def session_ids (events : List AnalyticsEvent) : List String :=
  (events.map AnalyticsEvent.session_id).dedup

/-- The per-session view counts produced by the inner grouping query. -/
def session_view_counts (events : List AnalyticsEvent) : List Nat :=
  (session_ids events).map
    (fun sid => (events.map AnalyticsEvent.session_id).count sid)

/-- Model of `SUM(CASE WHEN views = 1 THEN 1 ELSE 0 END)` over the grouped counts. -/
def single_page_sessions (events : List AnalyticsEvent) : Nat :=
  (session_view_counts events).countP (fun v => v = 1)

/-- Model of `COUNT(*)` over the grouped counts: the number of sessions. -/
def total_sessions (events : List AnalyticsEvent) : Nat :=
  (session_view_counts events).length

/-- Model of `bounce_rate = round((single_page_sessions / total_sessions) * 100, 1) if
total_sessions else 0.0`. -/
def bounce_rate (events : List AnalyticsEvent) : ℚ :=
  if total_sessions events = 0 then 0
  else pyRound1 (((single_page_sessions events : ℚ) / (total_sessions events)) * 100)

/-- Distinct values of a grouping key over the window, i.e. the groups of a
`GROUP BY` breakdown query. -/
def category_keys (key : AnalyticsEvent → String) (events : List AnalyticsEvent) :
    List String :=
  (events.map key).dedup

/-- The `(category, COUNT(*))` pairs of a breakdown query. -/
def category_counts (key : AnalyticsEvent → String) (events : List AnalyticsEvent) :
    List (String × Nat) :=
  (category_keys key events).map (fun c => (c, (events.map key).count c))

/-- Model of `round((visits / page_views) * 100, 1) if page_views else 0.0` — the share
figure attached to every breakdown row. -/
def share_of (visits page_views : Nat) : ℚ :=
  if page_views = 0 then 0
  else pyRound1 (((visits : ℚ) / (page_views : ℚ)) * 100)

/-- The shares of a list of breakdown rows against the window total. -/
def breakdown_shares (cats : List (String × Nat)) (page_views : Nat) : List ℚ :=
  cats.map (fun p => share_of p.2 page_views)

/-- Model of `COALESCE(NULLIF(device_type, ''), 'Unknown')`. -/
def device_key (e : AnalyticsEvent) : String :=
  if e.device_type = "" then "Unknown" else e.device_type

/-- Model of `COALESCE(NULLIF(device_os, ''), 'Other')`. -/
def os_key (e : AnalyticsEvent) : String :=
  if e.device_os = "" then "Other" else e.device_os

/-- Model of `COALESCE(NULLIF(traffic_source, ''), 'Direct')`. -/
def traffic_key (e : AnalyticsEvent) : String :=
  if e.traffic_source = "" then "Direct" else e.traffic_source

/-- Model of `COALESCE(NULLIF(country, ''), 'Unknown')`. -/
def country_key (e : AnalyticsEvent) : String :=
  if e.country = "" then "Unknown" else e.country

/-- Model of `trend_direction(change)` from `admin_analytics`. -/
def trend_direction (change : Option ℚ) : String :=
  match change with
  | none => "neutral"
  | some c => if c > 0 then "up" else if c < 0 then "down" else "neutral"

/-- A KPI card as built by `build_card`. -/
structure KpiCard where
  label : String
  value : ℚ
  trend : Option ℚ
  trend_direction : String
  caption : String
  format : String
  supplement : Option String

/-- Model of `build_card(label, value, prev_value, value_format, invert=…)`:
`direction_basis = -change if (change is not None and invert) else change`. -/
def build_card (label : String) (value prev_value : ℚ) (value_format : String)
    (invert : Bool) (comparison_label : String) (supplement : Option String) :
    KpiCard :=
  let change := compute_percent_change value prev_value
  let direction_basis :=
    match change with
    | some c => if invert then some (-c) else some c
    | none => none
  { label := label
    value := value
    trend := change
    trend_direction := trend_direction direction_basis
    caption := comparison_label
    format := value_format
    supplement := supplement }

/-- The reporting request `GET /admin/analytics`, reduced to the parts of its
view model the claims mention, returned together with the events table it
leaves behind: the handler only executes `SELECT` statements against
`analytics_events`, so the table it returns is the one it received. -/
def admin_analytics_run (db : List AnalyticsEvent) (cutoff prevCutoff : String) :
    (ℚ × ℚ × KpiCard) × List AnalyticsEvent :=
  let current := window_events db cutoff
  let previous := (db.filter (fun e => strLe prevCutoff e.created_at)).filter
    (fun e => !strLe cutoff e.created_at)
  let br := bounce_rate current
  let prev_br := bounce_rate previous
  ((br, prev_br, build_card "Bounce Rate" br prev_br "percent" true "" none), db)

/-! Helper lemmas about the rounding model, shared by several theorems below. -/

theorem roundHalfEven_intCast (n : ℤ) : roundHalfEven (n : ℚ) = n := by
  have h : ((n : ℚ) - ((n : ℤ) : ℚ)) < 1/2 := by norm_num
  simp [roundHalfEven, Int.floor_intCast]

theorem pyRound1_intCast (n : ℤ) : pyRound1 (n : ℚ) = n := by
  unfold pyRound1
  have h : ((n : ℚ) * 10) = ((n * 10 : ℤ) : ℚ) := by push_cast; ring
  rw [h, roundHalfEven_intCast]
  push_cast
  ring

theorem pyRound1_zero : pyRound1 0 = 0 := by
  have h := pyRound1_intCast 0
  simpa using h

theorem roundHalfEven_le (q : ℚ) : (roundHalfEven q : ℚ) ≤ q + 1/2 := by
  have hfl : ((⌊q⌋ : ℤ) : ℚ) ≤ q := Int.floor_le q
  unfold roundHalfEven
  split_ifs <;> push_cast <;> linarith

theorem roundHalfEven_ge (q : ℚ) : q - 1/2 ≤ (roundHalfEven q : ℚ) := by
  have hfl : q < ((⌊q⌋ : ℤ) : ℚ) + 1 := Int.lt_floor_add_one q
  unfold roundHalfEven
  split_ifs <;> push_cast <;> linarith

theorem roundHalfEven_nonneg (q : ℚ) (h : 0 ≤ q) : 0 ≤ roundHalfEven q := by
  have hf : 0 ≤ ⌊q⌋ := Int.floor_nonneg.mpr h
  unfold roundHalfEven
  split_ifs <;> omega

theorem pyRound1_le (q : ℚ) : pyRound1 q ≤ q + 1/20 := by
  unfold pyRound1
  have h := roundHalfEven_le (q * 10)
  linarith

theorem pyRound1_nonneg (q : ℚ) (h : 0 ≤ q) : 0 ≤ pyRound1 q := by
  have h10 : (0 : ℚ) ≤ q * 10 := by linarith
  have hn := roundHalfEven_nonneg (q * 10) h10
  unfold pyRound1
  have hc : (0 : ℚ) ≤ (roundHalfEven (q * 10) : ℚ) := by exact_mod_cast hn
  linarith

theorem pyRound1_neg (q : ℚ) (h : q ≤ -1/10) : pyRound1 q < 0 := by
  have hle := roundHalfEven_le (q * 10)
  unfold pyRound1
  linarith

/-!
Claim C2.
-/

/-- C2: for every current value `x` and previous value `p`,
`compute_percent_change(x, 0)` is `None`; for nonzero `x`,
`compute_percent_change(x, x)` is `0.0`; and for every `p ≠ 0` the result is
`((x - p) / p) * 100` rounded to one decimal place. -/
theorem compute_percent_change_spec (x p : ℚ) :
    compute_percent_change x 0 = none ∧
    (x ≠ 0 → compute_percent_change x x = some 0) ∧
    (p ≠ 0 → compute_percent_change x p = some (pyRound1 ((x - p) / p * 100))) := by
  refine ⟨by simp [compute_percent_change], fun hx => ?_, fun hp => ?_⟩
  · simp only [compute_percent_change, if_neg hx, sub_self, zero_div, zero_mul]
    rw [pyRound1_zero]
  · simp only [compute_percent_change, if_neg hp]

/-- Witness for C2 at `x = 3`, `p = 2`. -/
theorem compute_percent_change_spec_witness :
    compute_percent_change 3 0 = none ∧
    compute_percent_change 3 3 = some 0 ∧
    compute_percent_change 3 2 = some (pyRound1 ((3 - 2) / 2 * 100)) :=
  ⟨(compute_percent_change_spec 3 2).1,
   (compute_percent_change_spec 3 2).2.1 (by norm_num),
   (compute_percent_change_spec 3 2).2.2 (by norm_num)⟩

/-!
Claim C5.  The slug rule of the claim, as a standalone definition, so that the
theorem can compare the code's function against it: the claim additionally
maps an *empty* path to `"home"`, which the code does not do (it returns
`None` for a falsy path), so the comparison holds only for nonempty input.
-/

/-- The slug rule as the spec states it, for nonempty input: ignore query
string and fragment, map the root (or slash-only) path to `"home"`, map a path
whose first segment is `pages` (with a second segment present) to that second
segment, otherwise take the final path segment. -/
def claimed_slug (p : String) : Option String :=
  let clean := (splitS ((splitS p '?').headD "") '#').headD ""
  let stripped := stripChar clean '/'
  if clean = "/" ∨ stripped = "" then some "home"
  else
    let parts := splitS stripped '/'
    if parts.headD "" = "pages" ∧ parts.length > 1 then some (parts.getD 1 "")
    else some (parts.getLastD "")

/-- C5 counterexample: the claim says the empty path returns `"home"`, but
`extract_slug_from_path("")` returns `None` (the function's first line is
`if not path: return None`). -/
theorem extract_slug_empty_path_counterexample :
    ¬ extract_slug_from_path "" = some "home" := by decide

/-- C5 (amended): the empty path yields no slug (`None`); for every nonempty
path the function ignores the query string and fragment and returns `"home"`
for the root or slash-only path, the second segment for a path whose first
segment is `pages`, and otherwise the final path segment; in particular both
`"/pages/about"` and `"/pages/about?x=1#y"` return `"about"`. -/
theorem extract_slug_from_path_spec (p : String) :
    extract_slug_from_path "" = none ∧
    (p ≠ "" → extract_slug_from_path p = claimed_slug p) ∧
    extract_slug_from_path "/pages/about" = some "about" ∧
    extract_slug_from_path "/pages/about?x=1#y" = some "about" := by
  refine ⟨by decide, fun hp => ?_, by decide, by decide⟩
  unfold extract_slug_from_path claimed_slug
  rw [if_neg hp]
  dsimp only
  generalize (splitS ((splitS p '?').headD "") '#').headD "" = clean
  generalize stripChar clean '/' = st
  generalize splitS st '/' = parts
  by_cases h1 : clean = "/"
  · simp [h1]
  · by_cases h2 : st = ""
    · simp [h1, h2]
    · by_cases h3 : parts.headD "" = "pages"
      · by_cases h4 : parts.length > 1
        · simp [h1, h2, h3, h4]
        · simp [h1, h2, h3, h4]
      · simp [h1, h2, h3]

/-- Witness for C5 at the nonempty path `"/news/item"`. -/
theorem extract_slug_from_path_spec_witness :
    extract_slug_from_path "/news/item" = claimed_slug "/news/item" :=
  (extract_slug_from_path_spec "/news/item").2.1 (by decide)

/-!
Claim C7.
-/

/-- C7: the displayed trend direction is `"up"` for a positive change,
`"down"` for a negative one and `"neutral"` otherwise (a null change
included); the bounce-rate card is built with `invert=True`, which negates the
change before the mapping, so a strictly falling bounce rate — both rates
being one-decimal percentages, the previous one positive and at most 100 —
displays as `"up"`. -/
theorem trend_direction_spec (v p : ℚ) (m n : ℕ) :
    (∀ c : ℚ, trend_direction (some c) =
      if c > 0 then "up" else if c < 0 then "down" else "neutral") ∧
    trend_direction none = "neutral" ∧
    (v = (m : ℚ) / 10 → p = (n : ℚ) / 10 → m < n → n ≤ 1000 →
      (build_card "Bounce Rate" v p "percent" true "" none).trend_direction = "up") := by
  refine ⟨fun c => rfl, rfl, fun hv hp hmn hn => ?_⟩
  have hn0 : 0 < (n : ℚ) := by
    have h : 0 < n := Nat.pos_of_ne_zero (by omega)
    exact_mod_cast h
  have hp0 : p ≠ 0 := by
    rw [hp]
    positivity
  have h1 : ((m : ℚ) - n) ≤ -1 := by
    have h : (m : ℚ) + 1 ≤ n := by exact_mod_cast hmn
    linarith
  have hn1000 : (n : ℚ) ≤ 1000 := by exact_mod_cast hn
  have hterm : (v - p) / p * 100 = ((m : ℚ) - n) * 100 / n := by
    rw [hv, hp]
    field_simp
  have hq : (v - p) / p * 100 ≤ -1/10 := by
    rw [hterm, div_le_iff₀ hn0]
    linarith
  have hc : pyRound1 ((v - p) / p * 100) < 0 := pyRound1_neg _ hq
  have hpos : 0 < -pyRound1 ((v - p) / p * 100) := by linarith
  simp only [build_card, compute_percent_change, if_neg hp0, trend_direction, hpos, if_pos]

/-- Witness for C7: bounce rate falling from 50.0 to 40.0 displays as "up". -/
theorem trend_direction_spec_witness :
    (build_card "Bounce Rate" 40 50 "percent" true "" none).trend_direction = "up" :=
  (trend_direction_spec 40 50 400 500).2.2 (by norm_num) (by norm_num)
    (by norm_num) (by norm_num)

/-!
Claim C3.
-/

/-- C3: for every reporting window, the single-page-session figure — obtained
by first grouping the window's events by `session_id` into per-session view
counts and then counting groups of size one — equals the number of sessions
with exactly one event; the bounce rate is that figure divided by the total
number of sessions times 100 (one decimal); a window with 1 single-page
session out of 2 sessions yields exactly 50.0 and a window with zero sessions
yields 0.0. -/
theorem bounce_rate_spec (db : List AnalyticsEvent) (cutoff : String) :
    single_page_sessions (window_events db cutoff) =
      ((session_ids (window_events db cutoff)).filter
        (fun sid => ((window_events db cutoff).filter
          (fun e => e.session_id == sid)).length = 1)).length ∧
    total_sessions (window_events db cutoff) =
      (session_ids (window_events db cutoff)).length ∧
    bounce_rate (window_events db cutoff) =
      (if total_sessions (window_events db cutoff) = 0 then 0
       else pyRound1 (((single_page_sessions (window_events db cutoff) : ℚ) /
         (total_sessions (window_events db cutoff))) * 100)) ∧
    (single_page_sessions (window_events db cutoff) = 1 →
      total_sessions (window_events db cutoff) = 2 →
      bounce_rate (window_events db cutoff) = 50) ∧
    (total_sessions (window_events db cutoff) = 0 →
      bounce_rate (window_events db cutoff) = 0) := by
  refine ⟨?_, ?_, rfl, fun h1 h2 => ?_, fun h0 => ?_⟩
  · simp only [single_page_sessions, session_view_counts, session_ids,
      List.count_eq_countP, List.countP_map, List.countP_eq_length_filter,
      List.filter_map, List.length_map, Function.comp_def]
  · simp [total_sessions, session_view_counts]
  · unfold bounce_rate
    rw [h1, h2]
    have hval : ((1 : ℕ) : ℚ) / ((2 : ℕ) : ℚ) * 100 = ((50 : ℤ) : ℚ) := by norm_num
    rw [if_neg (by norm_num), hval, pyRound1_intCast]
    norm_num
  · unfold bounce_rate
    rw [h0]
    simp

/-- Witness for C3: a window holding sessions {s1 with one view, s2 with two
views} has bounce rate exactly 50.0. -/
theorem bounce_rate_spec_witness :
    bounce_rate (window_events
      [{ session_id := "s1", created_at := "2025-01-02 00:00:00" },
       { session_id := "s2", created_at := "2025-01-02 00:01:00" },
       { session_id := "s2", created_at := "2025-01-03 00:00:00" }]
      "2025-01-01 00:00:00") = 50 :=
  (bounce_rate_spec
      [{ session_id := "s1", created_at := "2025-01-02 00:00:00" },
       { session_id := "s2", created_at := "2025-01-02 00:01:00" },
       { session_id := "s2", created_at := "2025-01-03 00:00:00" }]
      "2025-01-01 00:00:00").2.2.2.1 (by decide) (by decide)

/-!
Claim C6.  Sum lemmas used for the share-of-total bound.
-/

theorem sum_map_add_const {α : Type} (l : List α) (f : α → ℚ) (c : ℚ) :
    (l.map (fun a => f a + c)).sum = (l.map f).sum + (l.length : ℚ) * c := by
  induction l with
  | nil => simp
  | cons x xs ih =>
    simp only [List.map_cons, List.sum_cons, List.length_cons, ih]
    push_cast
    ring

theorem sum_map_div_mul {α : Type} (l : List α) (g : α → ℕ) (N : ℚ) :
    (l.map (fun a => ((g a : ℚ) / N) * 100)).sum = (((l.map g).sum : ℕ) : ℚ) * 100 / N := by
  induction l with
  | nil => simp
  | cons x xs ih =>
    simp only [List.map_cons, List.sum_cons, ih]
    push_cast
    ring

theorem category_counts_sum (key : AnalyticsEvent → String) (events : List AnalyticsEvent) :
    ((category_counts key events).map Prod.snd).sum = events.length := by
  simp only [category_counts, category_keys, List.map_map, Function.comp_def]
  have h := List.sum_map_count_dedup_eq_length (events.map key)
  simpa using h

theorem subperm_counts_le (key : AnalyticsEvent → String) (events : List AnalyticsEvent)
    (cats : List (String × Nat)) (h : List.Subperm cats (category_counts key events)) :
    (cats.map Prod.snd).sum ≤ events.length := by
  rcases h with ⟨l, hperm, hsub⟩
  have hs2 : (l.map Prod.snd).sum ≤ ((category_counts key events).map Prod.snd).sum :=
    (hsub.map Prod.snd).sum_le_sum (fun a _ => Nat.zero_le a)
  have hp2 : (l.map Prod.snd).sum = (cats.map Prod.snd).sum :=
    (hperm.map Prod.snd).sum_eq
  rw [category_counts_sum key events] at hs2
  omega

/-- C6: every breakdown share equals `category_count / total_page_views × 100`
rounded to one decimal; when the window has zero page views every share is 0.0
(not null); and for a positive total, the shares of any sub-permutation of the
breakdown's categories (the full category list, or an `ORDER BY … LIMIT`
selection) sum to at most 100 plus one rounding half-step (0.05) per
category. -/
theorem breakdown_shares_spec (key : AnalyticsEvent → String) (db : List AnalyticsEvent)
    (cutoff : String) (cats : List (String × Nat)) :
    (∀ c ∈ cats, share_of c.2 (window_events db cutoff).length =
      (if (window_events db cutoff).length = 0 then 0
       else pyRound1 (((c.2 : ℚ) / ((window_events db cutoff).length : ℚ)) * 100))) ∧
    ((window_events db cutoff).length = 0 →
      ∀ s ∈ breakdown_shares cats (window_events db cutoff).length, s = 0) ∧
    (List.Subperm cats (category_counts key (window_events db cutoff)) →
      0 < (window_events db cutoff).length →
      (breakdown_shares cats (window_events db cutoff).length).sum ≤
        100 + (cats.length : ℚ) * (1/20)) := by
  set ev := window_events db cutoff with hev
  refine ⟨fun c _ => rfl, fun h0 s hs => ?_, fun hsub hpos => ?_⟩
  · unfold breakdown_shares at hs
    rcases List.mem_map.mp hs with ⟨p, hp, rfl⟩
    unfold share_of
    rw [if_pos h0]
  · have hcounts : (cats.map Prod.snd).sum ≤ ev.length := subperm_counts_le key ev cats hsub
    have hN : (0 : ℚ) < (ev.length : ℚ) := by exact_mod_cast hpos
    have hpt : ∀ c ∈ cats,
        share_of c.2 ev.length ≤ ((c.2 : ℚ) / (ev.length : ℚ)) * 100 + 1/20 := by
      intro c _
      unfold share_of
      rw [if_neg (Nat.pos_iff_ne_zero.mp hpos)]
      exact pyRound1_le _
    calc (breakdown_shares cats ev.length).sum
        ≤ (cats.map (fun c => ((c.2 : ℚ) / (ev.length : ℚ)) * 100 + 1/20)).sum := by
          unfold breakdown_shares
          exact List.sum_le_sum hpt
      _ = (cats.map (fun c => ((c.2 : ℚ) / (ev.length : ℚ)) * 100)).sum +
            (cats.length : ℚ) * (1/20) :=
          sum_map_add_const cats (fun c => ((c.2 : ℚ) / (ev.length : ℚ)) * 100) (1/20)
      _ ≤ 100 + (cats.length : ℚ) * (1/20) := by
          rw [sum_map_div_mul cats Prod.snd (ev.length : ℚ)]
          have hS : (((cats.map Prod.snd).sum : ℕ) : ℚ) ≤ (ev.length : ℚ) := by
            exact_mod_cast hcounts
          have hdiv : (((cats.map Prod.snd).sum : ℕ) : ℚ) * 100 / (ev.length : ℚ) ≤ 100 := by
            rw [div_le_iff₀ hN]
            linarith
          linarith

/-- Witness for C6: the full device-type breakdown of a one-event window. -/
theorem breakdown_shares_spec_witness :
    (breakdown_shares
        (category_counts device_key (window_events [{ created_at := "2025-01-01 00:00:00" }] ""))
        (window_events [{ created_at := "2025-01-01 00:00:00" }] "").length).sum ≤
      100 + ((category_counts device_key
        (window_events [{ created_at := "2025-01-01 00:00:00" }] "")).length : ℚ) * (1/20) :=
  (breakdown_shares_spec device_key [{ created_at := "2025-01-01 00:00:00" }] ""
      (category_counts device_key
        (window_events [{ created_at := "2025-01-01 00:00:00" }] ""))).2.2
    (List.Subperm.refl _) (by decide)

/-!
Claim C4.
-/

/-- Inversion of a successful classification: the returned UTM fields come
from the URL, the returned referrer domain from the referrer, and the label is
the decision chain applied to the returned fields. -/
theorem classify_traffic_source_inv (url referrer : Option String) (host0 : String)
    (tc : TrafficClass) (h : classify_traffic_source url referrer host0 = some tc) :
    extract_utms url = some (tc.utm_source, tc.utm_medium, tc.utm_campaign) ∧
    extract_referrer_domain referrer = some tc.referrer_domain ∧
    tc.traffic_source = classify_decision tc.utm_medium tc.referrer_domain host0 := by
  unfold classify_traffic_source at h
  rcases hu : extract_utms url with _ | ⟨us, um, uc⟩ <;> rw [hu] at h <;> dsimp only at h
  · exact absurd h (by simp)
  · rcases hr : extract_referrer_domain referrer with _ | rd <;> rw [hr] at h <;>
      dsimp only at h
    · exact absurd h (by simp)
    · simp only [Option.some.injEq] at h
      subst h
      exact ⟨rfl, rfl, rfl⟩

/-- The decision chain under a truthy `utm_medium` ignores the referrer
domain entirely. -/
theorem classify_decision_utm (um rd : Option String) (host0 : String)
    (h : strTruthy um = true) :
    classify_decision um rd host0 = medium_label (um.getD "") := by
  unfold classify_decision
  rw [if_pos h]

/-- C4: the classifier follows the precedence UTM > referrer-internal >
social > search > generic-referral > direct.  A present (truthy) `utm_medium`
alone decides the label, whatever the referrer (`utm_medium=cpc` with a social
referrer is "Paid Search"); absent UTM, a referrer whose normalized domain
suffix-matches the normalized host is "Internal" (e.g. `www.example.com`
against host `example.com`); otherwise a social-domain token match is
"Social", then a search-domain token match is "Organic Search", then any
remaining referrer is "Referral"; with neither UTM nor referrer domain the
label is "Direct". -/
theorem classify_traffic_source_spec (url referrer r1 r2 : Option String) (host0 : String) :
    (∀ tc1 tc2, classify_traffic_source url r1 host0 = some tc1 →
      classify_traffic_source url r2 host0 = some tc2 →
      strTruthy tc1.utm_medium = true →
      tc1.traffic_source = medium_label (tc1.utm_medium.getD "") ∧
      tc2.traffic_source = tc1.traffic_source) ∧
    ((classify_traffic_source (some "https://x.com/p?utm_medium=cpc")
      (some "https://facebook.com/post") "example.com").map TrafficClass.traffic_source =
      some "Paid Search") ∧
    (∀ tc, classify_traffic_source url referrer host0 = some tc →
      strTruthy tc.utm_medium = false →
      strTruthy tc.referrer_domain = true →
      (normalize_host host0 != "" &&
        endsWithS (tc.referrer_domain.getD "") (normalize_host host0)) = true →
      tc.traffic_source = "Internal") ∧
    ((classify_traffic_source none (some "https://www.example.com/page")
      "example.com").map TrafficClass.traffic_source = some "Internal") ∧
    (∀ tc, classify_traffic_source url referrer host0 = some tc →
      strTruthy tc.utm_medium = false →
      strTruthy tc.referrer_domain = true →
      (normalize_host host0 != "" &&
        endsWithS (tc.referrer_domain.getD "") (normalize_host host0)) = false →
      SOCIAL_DOMAINS.any (fun tok => pyContains (tc.referrer_domain.getD "") tok) = true →
      tc.traffic_source = "Social") ∧
    (∀ tc, classify_traffic_source url referrer host0 = some tc →
      strTruthy tc.utm_medium = false →
      strTruthy tc.referrer_domain = true →
      (normalize_host host0 != "" &&
        endsWithS (tc.referrer_domain.getD "") (normalize_host host0)) = false →
      SOCIAL_DOMAINS.any (fun tok => pyContains (tc.referrer_domain.getD "") tok) = false →
      SEARCH_DOMAINS.any (fun tok => pyContains (tc.referrer_domain.getD "") tok) = true →
      tc.traffic_source = "Organic Search") ∧
    (∀ tc, classify_traffic_source url referrer host0 = some tc →
      strTruthy tc.utm_medium = false →
      strTruthy tc.referrer_domain = true →
      (normalize_host host0 != "" &&
        endsWithS (tc.referrer_domain.getD "") (normalize_host host0)) = false →
      SOCIAL_DOMAINS.any (fun tok => pyContains (tc.referrer_domain.getD "") tok) = false →
      SEARCH_DOMAINS.any (fun tok => pyContains (tc.referrer_domain.getD "") tok) = false →
      tc.traffic_source = "Referral") ∧
    (∀ tc, classify_traffic_source url referrer host0 = some tc →
      strTruthy tc.utm_medium = false →
      strTruthy tc.referrer_domain = false →
      tc.traffic_source = "Direct") := by
  refine ⟨fun tc1 tc2 h1 h2 hum => ?_, by decide, fun tc h hum hrd hint => ?_, by decide,
    fun tc h hum hrd hint hsoc => ?_, fun tc h hum hrd hint hsoc hsea => ?_,
    fun tc h hum hrd hint hsoc hsea => ?_, fun tc h hum hrd => ?_⟩
  · obtain ⟨hu1, _, ht1⟩ := classify_traffic_source_inv url r1 host0 tc1 h1
    obtain ⟨hu2, _, ht2⟩ := classify_traffic_source_inv url r2 host0 tc2 h2
    rw [hu1] at hu2
    have hmeq : tc2.utm_medium = tc1.utm_medium := by
      simpa using congrArg (fun t => t.map (fun x => x.2.1)) hu2.symm
    constructor
    · rw [ht1, classify_decision_utm _ _ _ hum]
    · rw [ht1, ht2, hmeq, classify_decision_utm _ _ _ hum,
        classify_decision_utm _ _ _ hum]
  · obtain ⟨_, _, ht⟩ := classify_traffic_source_inv url referrer host0 tc h
    rw [ht]
    unfold classify_decision
    rw [if_neg (by simp [hum]), if_pos hrd, if_pos hint]
  · obtain ⟨_, _, ht⟩ := classify_traffic_source_inv url referrer host0 tc h
    rw [ht]
    unfold classify_decision
    rw [if_neg (by simp [hum]), if_pos hrd, if_neg (by simp [hint]), if_pos hsoc]
  · obtain ⟨_, _, ht⟩ := classify_traffic_source_inv url referrer host0 tc h
    rw [ht]
    unfold classify_decision
    rw [if_neg (by simp [hum]), if_pos hrd, if_neg (by simp [hint]),
      if_neg (by simp [hsoc]), if_pos hsea]
  · obtain ⟨_, _, ht⟩ := classify_traffic_source_inv url referrer host0 tc h
    rw [ht]
    unfold classify_decision
    rw [if_neg (by simp [hum]), if_pos hrd, if_neg (by simp [hint]),
      if_neg (by simp [hsoc]), if_neg (by simp [hsea])]
  · obtain ⟨_, _, ht⟩ := classify_traffic_source_inv url referrer host0 tc h
    rw [ht]
    unfold classify_decision
    rw [if_neg (by simp [hum]), if_neg (by simp [hrd])]

/-- Witness for C4: the internal and direct branches at concrete inputs. -/
theorem classify_traffic_source_spec_witness :
    (⟨"Internal", none, none, none, some "example.com"⟩ : TrafficClass).traffic_source =
      "Internal" ∧
    (⟨"Direct", none, none, none, none⟩ : TrafficClass).traffic_source = "Direct" :=
  ⟨(classify_traffic_source_spec none (some "https://www.example.com/page") none none
        "example.com").2.2.1
      ⟨"Internal", none, none, none, some "example.com"⟩
      (by decide) (by decide) (by decide) (by decide),
   (classify_traffic_source_spec none none none none "example.com").2.2.2.2.2.2.2
      ⟨"Direct", none, none, none, none⟩ (by decide) (by decide) (by decide)⟩

/-!
Claims C1, C8, C9, C10: the ingestion endpoint.
-/

/-- With all four guards passing, the handler reduces to the classification
and insert step. -/
theorem analytics_track_accepted (req : Request) (now : String) (db : List AnalyticsEvent)
    (h1 : req.is_json = true) (h2 : origin_mismatch req = false)
    (h3 : startsWithS (declared_path req) "/admin" = false)
    (h4 : is_probably_bot req.user_agent = false) :
    analytics_track req now db =
      (classify_traffic_source (req.body.getD {}).url
        (pyOr (req.body.getD {}).referrer req.referrer) req.host).map
        (fun tc => (("", 204), db ++ [track_row req now tc])) := by
  unfold analytics_track
  rw [h1, h2, h3, h4]
  simp only [Bool.not_true, Bool.false_eq_true, if_false]
  rcases hc : classify_traffic_source (req.body.getD {}).url
      (pyOr (req.body.getD {}).referrer req.referrer) req.host with _ | tc <;> rfl

/-- C1 counterexample: a request whose declared content type is JSON but whose
body is not valid JSON (`request.get_json(silent=True)` yields nothing, which
the handler replaces by `{}`) is NOT rejected: one row is inserted and 204
returned, contradicting the claim that an invalid-JSON body writes no row. -/
theorem analytics_track_invalid_json_counterexample :
    ({ is_json := true, body := none, user_agent := "Mozilla/5.0",
       host := "example.com", remote_addr := "203.0.113.5" } : Request).body = none ∧
    (analytics_track
      { is_json := true, body := none, user_agent := "Mozilla/5.0",
        host := "example.com", remote_addr := "203.0.113.5" }
      "2025-06-01 12:00:00" []).map (fun r => (r.1, r.2.length)) =
      some (("", 204), 1) :=
  ⟨rfl, by decide⟩

/-- C1 (amended): the request is silently dropped — HTTP 204, empty body, no
row — exactly when the content type is not JSON, or the declared `path` field
begins with `/admin`, or the user agent matches the bot heuristic, or a
non-empty `Origin` header fails the prefix check against the serving host
URL.  A body that declares JSON but does not parse is treated as the empty
payload, not rejected.  Otherwise the handler returns 204 with exactly one
row appended (or a server error when the unguarded URL parsing inside the
classifier raises); the row carries the server clock as `created_at`, the
payload's `visitor_id` when that field is truthy and the hashed
address/user-agent fallback otherwise, and a `page_slug` derived from the
effective path when the payload does not supply one. -/
theorem analytics_track_spec (req : Request) (now : String) (db : List AnalyticsEvent)
    (tc : TrafficClass) :
    (track_rejected req = true → analytics_track req now db = some (("", 204), db)) ∧
    (track_rejected req = false →
      analytics_track req now db =
        (classify_traffic_source (req.body.getD {}).url
          (pyOr (req.body.getD {}).referrer req.referrer) req.host).map
          (fun c => (("", 204), db ++ [track_row req now c]))) ∧
    (track_row req now tc).created_at = now ∧
    (strTruthy (req.body.getD {}).visitor_id = true →
      (track_row req now tc).visitor_id = (req.body.getD {}).visitor_id.getD "") ∧
    (strTruthy (req.body.getD {}).visitor_id = false →
      (track_row req now tc).visitor_id =
        sha256_hex_32 ((req.x_forwarded_for.getD req.remote_addr) ++ "|" ++ req.user_agent)) ∧
    (strTruthy (req.body.getD {}).page_slug = false →
      (track_row req now tc).page_slug = extract_slug_from_path (track_path req)) := by
  refine ⟨fun hrej => ?_, fun hacc => ?_, rfl, fun hv => ?_, fun hv => ?_, fun hs => ?_⟩
  · unfold track_rejected at hrej
    unfold analytics_track
    by_cases h1 : req.is_json = true
    · by_cases h2 : origin_mismatch req = true
      · simp [h1, h2]
      · by_cases h3 : startsWithS (declared_path req) "/admin" = true
        · simp [h1, h2, h3]
        · by_cases h4 : is_probably_bot req.user_agent = true
          · simp [h1, h2, h3, h4]
          · exfalso
            simp [h1, h2, h3, h4] at hrej
    · simp [h1]
  · unfold track_rejected at hacc
    simp only [Bool.or_eq_false_iff, Bool.not_eq_false'] at hacc
    obtain ⟨⟨⟨h1, h2⟩, h3⟩, h4⟩ := hacc
    exact analytics_track_accepted req now db h1 h2 h3 h4
  · simp [track_row, hv]
  · simp [track_row, hv]
  · simp [track_row, pyOr, hs]

/-- Witness for C1: a bot request is dropped with the table unchanged; a
payload without `visitor_id` gets the hashed fallback identifier. -/
theorem analytics_track_spec_witness :
    analytics_track
      { host := "example.com", user_agent := "Googlebot", body := some {} }
      "2025-01-01 00:00:00" [] = some (("", 204), []) ∧
    (track_row
      { host := "example.com", user_agent := "Mozilla/5.0",
        remote_addr := "1.2.3.4", body := some {} }
      "2025-01-01 00:00:00"
      ⟨"Direct", none, none, none, none⟩).visitor_id =
      sha256_hex_32 ("1.2.3.4" ++ "|" ++ "Mozilla/5.0") :=
  ⟨(analytics_track_spec
      { host := "example.com", user_agent := "Googlebot", body := some {} }
      "2025-01-01 00:00:00" [] ⟨"Direct", none, none, none, none⟩).1 (by decide),
   (analytics_track_spec
      { host := "example.com", user_agent := "Mozilla/5.0",
        remote_addr := "1.2.3.4", body := some {} }
      "2025-01-01 00:00:00" [] ⟨"Direct", none, none, none, none⟩).2.2.2.2.1 (by decide)⟩

/-- C8: the ingestion endpoint can only append — any successful response
leaves the first `db.length` rows exactly as they were and adds at most one
row — and the reporting request returns the events table exactly as it found
it (it executes only `SELECT` statements). -/
theorem analytics_events_append_only (req : Request) (now : String)
    (db : List AnalyticsEvent) (cutoff prevCutoff : String) :
    (analytics_track req now db = none ∨
      (analytics_track req now db).map
        (fun r => (r.2.take db.length, decide (r.2.length ≤ db.length + 1))) =
        some (db, true)) ∧
    (admin_analytics_run db cutoff prevCutoff).2 = db := by
  constructor
  · unfold analytics_track
    split_ifs
    · right; simp
    · right; simp
    · right; simp
    · right; simp
    · rcases hc : classify_traffic_source (req.body.getD {}).url
          (pyOr (req.body.getD {}).referrer req.referrer) req.host with _ | tc
      · left; rfl
      · right
        simp [List.take_left]
  · rfl

/-- C9: a beacon that omits (or blanks) the declared `path` but carries a
`url` whose path component begins with `/admin` is not rejected — the admin
filter checks only the declared field, before the fallback derivation — and
the inserted row's path is the URL's (admin-prefixed) path. -/
theorem admin_path_url_bypass (req : Request) (now : String) (db : List AnalyticsEvent)
    (pl : Payload) (u : String) (pu : UrlParse)
    (hjson : req.is_json = true)
    (horig : origin_mismatch req = false)
    (hbody : req.body = some pl)
    (hpath : pl.path.getD "" = "")
    (hbot : is_probably_bot req.user_agent = false)
    (hurl : pl.url = some u)
    (hu : u ≠ "")
    (hparse : urlparse u = some pu)
    (hadm : startsWithS pu.path "/admin" = true)
    (hcl : classify_traffic_source pl.url (pyOr pl.referrer req.referrer) req.host ≠ none) :
    track_rejected req = false ∧
    (analytics_track req now db).map (fun r => r.2.length) = some (db.length + 1) ∧
    (track_result_row req now db).map (fun e => e.path) = some (some pu.path) := by
  have hdp : declared_path req = "" := by
    unfold declared_path
    rw [hbody]
    exact hpath
  have hadm0 : startsWithS (declared_path req) "/admin" = false := by
    rw [hdp]
    decide
  have htp : track_path req = pu.path := by
    unfold track_path
    rw [hbody]
    simp only [Option.getD_some]
    simp [hpath, hurl, strTruthy, hu, hparse]
  have hacc := analytics_track_accepted req now db hjson horig hadm0 hbot
  rw [hbody] at hacc
  simp only [Option.getD_some] at hacc
  rcases hc : classify_traffic_source pl.url (pyOr pl.referrer req.referrer) req.host
      with _ | tc
  · exact absurd hc hcl
  · rw [hc] at hacc
    have hne2 : pu.path ≠ "" := by
      intro he
      rw [he] at hadm
      exact absurd hadm (by decide)
    refine ⟨?_, ?_, ?_⟩
    · unfold track_rejected
      rw [hjson, horig, hadm0, hbot]
      simp
    · rw [hacc]
      simp
    · unfold track_result_row
      rw [hacc]
      simp [List.getLastD_concat, track_row, htp, hne2]

/-- Witness for C9: a beacon with an empty declared path and
`url = "https://example.com/admin/users"` inserts a row with that admin
path. -/
theorem admin_path_url_bypass_witness :
    track_rejected
      { host := "example.com", user_agent := "Mozilla/5.0",
        body := some { url := some "https://example.com/admin/users" } } = false ∧
    (analytics_track
      { host := "example.com", user_agent := "Mozilla/5.0",
        body := some { url := some "https://example.com/admin/users" } }
      "2025-06-01 12:00:00" []).map (fun r => r.2.length) = some 1 ∧
    (track_result_row
      { host := "example.com", user_agent := "Mozilla/5.0",
        body := some { url := some "https://example.com/admin/users" } }
      "2025-06-01 12:00:00" []).map (fun e => e.path) = some (some "/admin/users") :=
  admin_path_url_bypass
    { host := "example.com", user_agent := "Mozilla/5.0",
      body := some { url := some "https://example.com/admin/users" } }
    "2025-06-01 12:00:00" [] { url := some "https://example.com/admin/users" }
    "https://example.com/admin/users"
    ⟨"https", "example.com", "/admin/users", "", "", ""⟩
    (by decide) (by decide) (by decide) (by decide) (by decide) (by decide)
    (by decide) (by decide) (by decide) (by decide)

/-- C10: the cross-origin guard compares by string prefix, not equality:
any present `Origin` whose value merely starts with the serving host URL
(trailing slash stripped) passes — including an origin on a different host
that extends the string — and such a request, when otherwise acceptable,
is recorded. -/
theorem origin_prefix_guard (req : Request) (now : String) (db : List AnalyticsEvent)
    (o : String)
    (horigin : req.origin = some o)
    (hpre : startsWithS o (rstripChar (host_url req) '/') = true) :
    origin_mismatch req = false ∧
    (req.is_json = true →
      startsWithS (declared_path req) "/admin" = false →
      is_probably_bot req.user_agent = false →
      analytics_track req now db ≠ none →
      (analytics_track req now db).map (fun r => (r.1, r.2.length)) =
        some (("", 204), db.length + 1)) := by
  have hom : origin_mismatch req = false := by
    unfold origin_mismatch
    rw [horigin]
    simp [hpre]
  refine ⟨hom, fun hjson hadm hbot hne => ?_⟩
  have hacc := analytics_track_accepted req now db hjson hom hadm hbot
  rcases hc : classify_traffic_source (req.body.getD {}).url
      (pyOr (req.body.getD {}).referrer req.referrer) req.host with _ | tc
  · rw [hc] at hacc
    simp at hacc
    exact absurd hacc hne
  · rw [hc] at hacc
    rw [hacc]
    simp

/-- Witness for C10: with host `example.com`, the foreign origin
`http://example.com.evil.net` passes the prefix check and the beacon is
recorded. -/
theorem origin_prefix_guard_witness :
    origin_mismatch
      { origin := some "http://example.com.evil.net", host := "example.com",
        user_agent := "Mozilla/5.0", body := some {} } = false ∧
    (analytics_track
      { origin := some "http://example.com.evil.net", host := "example.com",
        user_agent := "Mozilla/5.0", body := some {} }
      "2025-06-01 12:00:00" []).map (fun r => (r.1, r.2.length)) =
      some (("", 204), 1) :=
  ⟨(origin_prefix_guard
      { origin := some "http://example.com.evil.net", host := "example.com",
        user_agent := "Mozilla/5.0", body := some {} }
      "2025-06-01 12:00:00" [] "http://example.com.evil.net" (by decide) (by decide)).1,
   (origin_prefix_guard
      { origin := some "http://example.com.evil.net", host := "example.com",
        user_agent := "Mozilla/5.0", body := some {} }
      "2025-06-01 12:00:00" [] "http://example.com.evil.net" (by decide) (by decide)).2
     (by decide) (by decide) (by decide) (by decide)⟩

end LMSC
